import Mathlib

/-!
Shallow embedding of `src/geoportal.py` (a Streamlit geoportal application).

The core under verification is the ingestion pipeline `load_data` (lines
60-129 of the source): it saves the uploaded blob to a scratch file, for a
`.zip` upload extracts it to a scratch directory and searches the extracted
tree for the first `.shp` file in `os.walk` order, loads the resolved path
with geopandas, validates that the frame is non-empty and has a `geometry`
column, normalizes the coordinate reference system to EPSG:4326, and cleans
the scratch storage in a `finally` block.  The basemap lookup of
`create_map` (lines 134-152) and the upload widget's extension whitelist
(line 30) are also embedded.

Modelling decisions:
- External library behaviour (the OS write, `zipfile.extractall`,
  `gpd.read_file`, the pyproj coordinate transform) is abstracted into an
  `Env` record of oracles; theorems quantify over all oracles.
- Coordinates are modelled as integer pairs: the claims under study concern
  exact preservation and metadata, never floating-point arithmetic.
- The filesystem effects tracked are the ones the claims mention: existence
  of the scratch file and of the extraction directory, plus a counter of
  `finally`-block executions.
-/

set_option maxHeartbeats 1000000

namespace Geoportal

/-- One cell of a GeoDataFrame: a scalar attribute value, a geometry
(a list of coordinate pairs), or a null. -/
inductive Val where
  | num (n : Int)
  | str (s : String)
  | geom (coords : List (Int × Int))
  | null
deriving DecidableEq, Repr

/-- An uploaded blob: the declared file name plus raw bytes
(`uploaded_file.name`, `uploaded_file.getbuffer()`). -/
structure Upload where
  name : String
  content : List Nat
deriving DecidableEq, Repr

/-- Model of Python `str.lower()` (ASCII case folding, which is all the
source relies on), written by structural recursion so that concrete
instances evaluate inside the kernel. -/
def lowerStr (s : String) : String :=
  String.mk (s.data.map Char.toLower)

/-- Whether `pre` is a prefix of `cs`, by structural recursion. -/
def prefixChars : List Char → List Char → Bool
  | [], _ => true
  | _ :: _, [] => false
  | c :: cs, d :: ds => c = d && prefixChars cs ds

/-- Model of Python `str.endswith(post)`: `post` is a suffix of `s`. -/
def endsWithStr (s post : String) : Bool :=
  prefixChars post.data.reverse s.data.reverse

/-- Index of the last occurrence of `c` in `cs`, or `-1` when absent
(model of Python `str.rfind`). -/
def rfindIdx (cs : List Char) (c : Char) : Int :=
  (List.range cs.length).foldl
    (fun acc i => if cs.getD i ' ' = c then (i : Int) else acc) (-1)

/-- Check used by `os.path.splitext`: some character strictly between the
last separator and the last dot is not a dot (so the dot starts a real
extension rather than a leading-dot filename). -/
def hasStem (cs : List Char) (sepIndex dotIndex : Int) : Bool :=
  (List.range cs.length).any
    (fun i => decide (sepIndex < (i : Int)) && decide ((i : Int) < dotIndex)
      && decide (cs.getD i '.' ≠ '.'))

/-- Model of `os.path.splitext(p)[1]`: the extension including its dot, or
`""` when there is none. -/
def splitextExt (p : String) : String :=
  let cs := p.toList
  let sepIndex := rfindIdx cs '/'
  let dotIndex := rfindIdx cs '.'
  if hasStem cs sepIndex dotIndex then String.mk (cs.drop dotIndex.toNat)
  else ""

/-- Line 69 of the source: `os.path.splitext(uploaded_file.name)[1].lower()`. -/
def suffixOf (name : String) : String :=
  lowerStr (splitextExt name)

/-- The extension whitelist of the upload widget
(`st.file_uploader(..., type=['geojson', 'kml', 'gpkg', 'zip'])`, line 30). -/
def uploaderTypes : List String :=
  ["geojson", "kml", "gpkg", "zip"]

/-- Whether the upload widget lets a file with this name through: its
extension must be one of the whitelisted ones (case-insensitively). -/
def uploaderAccepts (name : String) : Bool :=
  uploaderTypes.any (fun t => suffixOf name == "." ++ t)

/-- The listing of one extracted directory, as a sibling chain: each entry
is a plain file or a subdirectory carrying its own listing.  The chain
order is the order the operating system reports the entries (`os.scandir`
order, which Python does not sort and does not specify). -/
inductive Entry where
  | nil
  | file (name : String) (rest : Entry)
  | dir (name : String) (children : Entry) (rest : Entry)
deriving DecidableEq, Repr

/-- Model of `os.path.join(root, name)` for the paths produced here. -/
def pathJoin (root name : String) : String :=
  root ++ "/" ++ name

/-- The `.shp` hits among the plain files of one directory level, in listing
order: the inner loop `for file in files: if file.lower().endswith(".shp")`
of lines 89-91 of the source. -/
def levelShp (root : String) : Entry → List String
  | Entry.nil => []
  | Entry.file n rest =>
    if endsWithStr (lowerStr n) ".shp" then pathJoin root n :: levelShp root rest
    else levelShp root rest
  | Entry.dir _ _ rest => levelShp root rest

/-- The `.shp` hits contributed by the subdirectories of a level, in the
top-down depth-first order of `os.walk`: each subdirectory's own files
first, then its nested subdirectories, then the later siblings. -/
def walkShpDirs (root : String) : Entry → List String
  | Entry.nil => []
  | Entry.file _ rest => walkShpDirs root rest
  | Entry.dir n children rest =>
    levelShp (pathJoin root n) children
      ++ walkShpDirs (pathJoin root n) children
      ++ walkShpDirs root rest

/-- The full `shp_files` list of lines 87-91: every extracted file whose
lowercased name ends in `.shp`, joined to its directory, in `os.walk`
top-down order (the root level's files first, then each subdirectory
depth-first in listing order). -/
def walkShp (root : String) (entries : Entry) : List String :=
  levelShp root entries ++ walkShpDirs root entries

/-- Whether the extracted tree contains, at any depth, a file whose
lowercased name ends in `.shp`. -/
def hasShp : Entry → Bool
  | Entry.nil => false
  | Entry.file n rest => endsWithStr (lowerStr n) ".shp" || hasShp rest
  | Entry.dir _ children rest => hasShp children || hasShp rest

/-- The in-memory geometric dataset produced by `gpd.read_file`: a column
index, one row of cells per feature, and an optional coordinate reference
system given by its EPSG code (`gdf.crs`, `None` when the data declares no
reference system).  WGS84 is EPSG code 4326. -/
structure GeoDataFrame where
  columns : List String
  rows : List (List Val)
  crs : Option Nat
deriving DecidableEq, Repr

/-- Model of `pandas.DataFrame.empty`: true when either axis has length
zero. -/
def GeoDataFrame.empty (g : GeoDataFrame) : Bool :=
  g.rows.isEmpty || g.columns.isEmpty

/-- Model of `GeoDataFrame.set_crs(epsg=...)`: record the reference system
without touching any coordinate; geopandas raises when a reference system
is already declared (the source only calls this when `gdf.crs is None`). -/
def GeoDataFrame.set_crs (g : GeoDataFrame) (epsg : Nat) : Except String GeoDataFrame :=
  if g.crs.isSome then Except.error "A CRS is already present"
  else Except.ok { g with crs := some epsg }

/-- The pyproj coordinate transform, abstracted: given source and target
EPSG codes it rewrites one feature row, or fails (for example when no
conversion between the systems can be computed). -/
abbrev Transform := Nat → Nat → List Val → Except String (List Val)

/-- Apply the transform to every feature row, stopping at the first
failure. -/
def mapRows (tr : Transform) (src dst : Nat) : List (List Val) → Except String (List (List Val))
  | [] => Except.ok []
  | r :: rs =>
    match tr src dst r, mapRows tr src dst rs with
    | Except.error e, _ => Except.error e
    | _, Except.error e => Except.error e
    | Except.ok r2, Except.ok rs2 => Except.ok (r2 :: rs2)

/-- Model of `GeoDataFrame.to_crs(epsg=...)`: geopandas raises on a frame
with no declared reference system (the source only calls this when
`gdf.crs` is set), and otherwise runs the pyproj transform over every
geometry and records the target system. -/
def GeoDataFrame.to_crs (tr : Transform) (g : GeoDataFrame) (epsg : Nat) : Except String GeoDataFrame :=
  match g.crs with
  | none => Except.error "Cannot transform naive geometries"
  | some src =>
    match mapRows tr src epsg g.rows with
    | Except.error e => Except.error e
    | Except.ok rs => Except.ok { g with crs := some epsg, rows := rs }

/-- The behaviour of the external collaborators during one ingestion call:
whether the OS write of the upload to the scratch file succeeds, the result
of `zipfile.extractall` (the extracted tree, or the message of the raised
error), and the result of `gpd.read_file` at each path.  Theorems quantify
over every environment. -/
structure Env where
  writeOk : Bool
  extractall : Except String Entry
  readFile : String → Except String GeoDataFrame

/-- Which `st.error` site of `load_data` reported the failure (the spec's
`IngestError` taxonomy): `unsupportedFormat` is the upload widget rejecting
an extension outside its whitelist, `zipUnreadable` is line 83
(`ArchiveUnreadable`), `noShpFound` is line 94 (`NoGeometryFileFound`),
`missingGeometry` is line 109, and `loadFailure` is the catch-all handler of
line 121, which receives driver faults (`DatasetUnreadable`), transform
faults (`ReprojectionFailure`) and scratch-write faults. -/
inductive ErrKind where
  | unsupportedFormat
  | zipUnreadable (msg : String)
  | noShpFound
  | missingGeometry
  | loadFailure (msg : String)
deriving DecidableEq, Repr

/-- Which scratch storage of the call still exists on disk. -/
structure FS where
  tmpExists : Bool
  dirExists : Bool
deriving DecidableEq, Repr

/-- The observable outcome of one `load_data` call: the returned value
(`gdf` or `None`), which error site reported (if any), the scratch storage
left behind, and how many times the `finally` block ran. -/
structure Outcome where
  result : Option GeoDataFrame
  err : Option ErrKind
  fs : FS
  cleanups : Nat
deriving DecidableEq, Repr

/-- The `finally` block of lines 124-129: remove the scratch file when
`tmp_path` was assigned and the file exists, then remove the extraction
directory when `extract_dir` was assigned and exists (`shutil.rmtree` with
`ignore_errors=True`). -/
def finallyCleanup (tmpAssigned dirAssigned : Bool) (fs : FS) : FS :=
  let fs1 := if tmpAssigned && fs.tmpExists then { fs with tmpExists := false } else fs
  if dirAssigned && fs1.dirExists then { fs1 with dirExists := false } else fs1

/-- The model name of the scratch file `tempfile.NamedTemporaryFile`
creates for the upload (`suffix=suffix`). -/
def tmpPath (up : Upload) : String :=
  "/tmp/upload" ++ suffixOf up.name

/-- The model name of the extraction directory `tempfile.mkdtemp` creates
in the archive case. -/
def extractRoot : String :=
  "/tmp/extract"

/-- Lines 107-118 of the source, after a frame was loaded: the structural
validation (`gdf.empty or "geometry" not in gdf.columns`) and the CRS
normalization (`set_crs` when no system is declared, otherwise `to_crs`),
followed by the `finally` cleanup.  `dirMade` records whether the archive
branch created an extraction directory.  A raise out of `set_crs`/`to_crs`
is caught by the line 120 handler. -/
def finishNormalize (tr : Transform) (gdf : GeoDataFrame) (dirMade : Bool) : Outcome :=
  let fs : FS := { tmpExists := true, dirExists := dirMade }
  if gdf.empty || !(gdf.columns.contains "geometry") then
    { result := none, err := some ErrKind.missingGeometry,
      fs := finallyCleanup true dirMade fs, cleanups := 1 }
  else
    match gdf.crs with
    | none =>
      match gdf.set_crs 4326 with
      | Except.error e =>
        { result := none, err := some (ErrKind.loadFailure e),
          fs := finallyCleanup true dirMade fs, cleanups := 1 }
      | Except.ok g2 =>
        { result := some g2, err := none,
          fs := finallyCleanup true dirMade fs, cleanups := 1 }
    | some _ =>
      match GeoDataFrame.to_crs tr gdf 4326 with
      | Except.error e =>
        { result := none, err := some (ErrKind.loadFailure e),
          fs := finallyCleanup true dirMade fs, cleanups := 1 }
      | Except.ok g2 =>
        { result := some g2, err := none,
          fs := finallyCleanup true dirMade fs, cleanups := 1 }

/-- The ingestion pipeline `load_data` of lines 60-129.  A `None` upload
returns before the `try` block, so no scratch is touched.  Otherwise the
scratch file is created by `NamedTemporaryFile(delete=False)`; when the
write into it faults, `tmp_path` is still unassigned (the assignment
`tmp_path = tmp.name` runs only after `tmp.write`), the line 120 handler
reports, and the `finally` block finds nothing to remove.  In the `.zip`
case the extraction directory is created before extraction is attempted;
extraction failure and an empty `shp_files` report at their own sites; the
first element of `shp_files` in `os.walk` order is loaded.  Every exit of
the `try` block runs the `finally` cleanup exactly once. -/
def load_data (tr : Transform) (env : Env) (uploaded_file : Option Upload) : Outcome :=
  match uploaded_file with
  | none =>
    { result := none, err := none,
      fs := { tmpExists := false, dirExists := false }, cleanups := 0 }
  | some up =>
    let suffix := suffixOf up.name
    if env.writeOk then
      if suffix == ".zip" then
        match env.extractall with
        | Except.error e =>
          { result := none, err := some (ErrKind.zipUnreadable e),
            fs := finallyCleanup true true { tmpExists := true, dirExists := true },
            cleanups := 1 }
        | Except.ok tree =>
          match walkShp extractRoot tree with
          | [] =>
            { result := none, err := some ErrKind.noShpFound,
              fs := finallyCleanup true true { tmpExists := true, dirExists := true },
              cleanups := 1 }
          | shp_path :: _ =>
            match env.readFile shp_path with
            | Except.error e =>
              { result := none, err := some (ErrKind.loadFailure e),
                fs := finallyCleanup true true { tmpExists := true, dirExists := true },
                cleanups := 1 }
            | Except.ok gdf => finishNormalize tr gdf true
      else
        match env.readFile (tmpPath up) with
        | Except.error e =>
          { result := none, err := some (ErrKind.loadFailure e),
            fs := finallyCleanup true false { tmpExists := true, dirExists := false },
            cleanups := 1 }
        | Except.ok gdf => finishNormalize tr gdf false
    else
      { result := none, err := some (ErrKind.loadFailure "tmp.write raised"),
        fs := finallyCleanup false false { tmpExists := true, dirExists := false },
        cleanups := 1 }

/-- The frame the format driver hands to the validation and normalization
steps: the archive resolution of lines 74-101 for a `.zip` upload, a direct
`gpd.read_file` of the scratch file otherwise. -/
def loadedFrame (env : Env) (up : Upload) : Except String GeoDataFrame :=
  if suffixOf up.name == ".zip" then
    match env.extractall with
    | Except.error e => Except.error e
    | Except.ok tree =>
      match walkShp extractRoot tree with
      | [] => Except.error "no shp file"
      | shp_path :: _ => env.readFile shp_path
  else env.readFile (tmpPath up)

/-- One ingestion request as the page wires it (lines 26-32 and 174-183):
`load_data` runs only on files the upload widget's extension whitelist let
through; a file outside the whitelist never reaches `load_data`, so no
scratch is ever allocated for it. -/
def ingest (tr : Transform) (env : Env) (up : Upload) : Outcome :=
  if uploaderAccepts up.name then load_data tr env (some up)
  else
    { result := none, err := some ErrKind.unsupportedFormat,
      fs := { tmpExists := false, dirExists := false }, cleanups := 0 }

/-- One entry of the tile-provider table: a tile source and an attribution
string. -/
structure TileInfo where
  tiles : String
  attribution : String
deriving DecidableEq, Repr

/-- The fixed tile-provider table `TILE_MAP` of lines 42-55. -/
def TILE_MAP : List (String × TileInfo) :=
  [("OpenStreetMap",
    { tiles := "OpenStreetMap", attribution := "© OpenStreetMap contributors" }),
   ("CartoDB Positron",
    { tiles := "CartoDB Positron", attribution := "© OpenStreetMap contributors © CartoDB" }),
   ("Stamen Terrain",
    { tiles := "Stamen Terrain",
      attribution := "Map tiles by Stamen Design, under CC BY 3.0. Data © OpenStreetMap contributors" })]

/-- Python `dict.get(k, dflt)`: the value at the key, or the default when
the key is absent. -/
def dictGet (m : List (String × TileInfo)) (k : String) (dflt : TileInfo) : TileInfo :=
  match m.find? (fun p => p.1 == k) with
  | some p => p.2
  | none => dflt

/-- Python `TILE_MAP["OpenStreetMap"]` (the default argument at line 145):
indexing raises on a missing key, but the key is present in the literal
table, so the fallback value of this model is unreachable. -/
def tileMapOSM : TileInfo :=
  dictGet TILE_MAP "OpenStreetMap" { tiles := "", attribution := "" }

/-- The folium map parameters `create_map` passes at lines 147-152; the
claims under study concern the tile selection, so the centroid computation
(which only affects the location) is not tracked. -/
structure FoliumMap where
  tiles : String
  attribution : String
  zoom_start : Nat
deriving DecidableEq, Repr

/-- Lines 145-152 of the source: `tile_info = TILE_MAP.get(basemap,
TILE_MAP["OpenStreetMap"])`, then the map is built from that entry. -/
def create_map (basemap : String) : FoliumMap :=
  let tile_info := dictGet TILE_MAP basemap tileMapOSM
  { tiles := tile_info.tiles, attribution := tile_info.attribution, zoom_start := 10 }

/-! ## Helper lemmas -/

theorem walkShp_eq_nil_iff (e : Entry) : ∀ root, walkShp root e = [] ↔ hasShp e = false := by
  induction e with
  | nil => intro root; simp [walkShp, levelShp, walkShpDirs, hasShp]
  | file n rest ih =>
    intro root
    have ih2 := ih root
    cases hc : endsWithStr (lowerStr n) ".shp" <;>
      simp [walkShp, levelShp, walkShpDirs, hasShp, hc] at ih2 ⊢ <;> tauto
  | dir n children rest ihc ihr =>
    intro root
    have h1 := ihc (pathJoin root n)
    have h2 := ihr root
    simp [walkShp, levelShp, walkShpDirs, hasShp] at h1 h2 ⊢
    tauto

theorem mapRows_ok_length (tr : Transform) (src dst : Nat) :
    ∀ (rows rs : List (List Val)), mapRows tr src dst rows = Except.ok rs →
      rs.length = rows.length := by
  intro rows
  induction rows with
  | nil => intro rs h; simp [mapRows] at h; simp [← h]
  | cons r rest ih =>
    intro rs h
    unfold mapRows at h
    cases htr : tr src dst r with
    | error e => rw [htr] at h; simp at h
    | ok r2 =>
      rw [htr] at h
      cases hm : mapRows tr src dst rest with
      | error e => rw [hm] at h; simp at h
      | ok rs2 =>
        rw [hm] at h
        simp at h
        subst h
        simp [ih rs2 hm]

theorem mapRows_id (tr : Transform) (htr : ∀ r, tr 4326 4326 r = Except.ok r) :
    ∀ rows, mapRows tr 4326 4326 rows = Except.ok rows := by
  intro rows
  induction rows with
  | nil => simp [mapRows]
  | cons r rest ih => simp [mapRows, htr r, ih]

theorem finallyCleanup_tmpAssigned (d : Bool) :
    finallyCleanup true d { tmpExists := true, dirExists := d } =
      { tmpExists := false, dirExists := false } := by
  cases d <;> rfl

theorem finishNormalize_result_some (tr : Transform) (f : GeoDataFrame) (d : Bool)
    (g : GeoDataFrame) (h : (finishNormalize tr f d).result = some g) :
    g.crs = some 4326 ∧ g.columns = f.columns ∧ g.rows.length = f.rows.length ∧
      f.empty = false ∧ "geometry" ∈ f.columns := by
  unfold finishNormalize at h
  split at h
  · simp at h
  · rename_i hv
    simp only [Bool.or_eq_true, Bool.not_eq_true', not_or] at hv
    obtain ⟨hv1, hv2⟩ := hv
    have hv1b : f.empty = false := by simpa using hv1
    have hv2b : "geometry" ∈ f.columns := by
      have : f.columns.contains "geometry" = true := by simpa using hv2
      simpa using this
    split at h
    · rename_i hcrs
      simp [GeoDataFrame.set_crs, hcrs] at h
      refine ⟨?_, ?_, ?_, hv1b, hv2b⟩ <;> simp [← h]
    · rename_i src hcrs
      cases hm : mapRows tr src 4326 f.rows with
      | error e => simp [GeoDataFrame.to_crs, hcrs, hm] at h
      | ok rs =>
        simp [GeoDataFrame.to_crs, hcrs, hm] at h
        refine ⟨?_, ?_, ?_, hv1b, hv2b⟩ <;>
          simp [← h, mapRows_ok_length tr src 4326 f.rows rs hm]

theorem load_data_eq_finishNormalize (tr : Transform) (env : Env) (up : Upload)
    (f : GeoDataFrame) (hw : env.writeOk = true)
    (hf : loadedFrame env up = Except.ok f) :
    load_data tr env (some up) = finishNormalize tr f (suffixOf up.name == ".zip") := by
  unfold loadedFrame at hf
  unfold load_data
  rw [hw]
  simp only [if_true]
  cases hz : (suffixOf up.name == ".zip") with
  | true =>
    simp only [hz, if_true] at hf ⊢
    cases he : env.extractall with
    | error e => simp [he] at hf
    | ok tree =>
      simp only [he] at hf ⊢
      cases hwk : walkShp extractRoot tree with
      | nil => simp [hwk] at hf
      | cons p rest =>
        simp only [hwk] at hf ⊢
        cases hr : env.readFile p with
        | error e => simp [hr] at hf
        | ok f2 =>
          simp only [hr] at hf ⊢
          simp at hf
          rw [hf]
  | false =>
    simp only [hz, Bool.false_eq_true, if_false] at hf ⊢
    cases hr : env.readFile (tmpPath up) with
    | error e => simp [hr] at hf
    | ok f2 =>
      simp only [hr] at hf ⊢
      simp at hf
      rw [hf]

theorem load_data_some_inv (tr : Transform) (env : Env) (u : Option Upload)
    (g : GeoDataFrame) (h : (load_data tr env u).result = some g) :
    ∃ up f, u = some up ∧ env.writeOk = true ∧ loadedFrame env up = Except.ok f ∧
      load_data tr env u = finishNormalize tr f (suffixOf up.name == ".zip") := by
  cases u with
  | none => simp [load_data] at h
  | some up =>
    cases hw : env.writeOk with
    | false => simp [load_data, hw] at h
    | true =>
      have hex : ∃ f2, loadedFrame env up = Except.ok f2 := by
        unfold load_data at h
        rw [hw] at h
        simp only [if_true] at h
        cases hz : (suffixOf up.name == ".zip") with
        | true =>
          simp only [hz, if_true] at h
          cases he : env.extractall with
          | error e => simp [he] at h
          | ok tree =>
            simp only [he] at h
            cases hwk : walkShp extractRoot tree with
            | nil => simp [hwk] at h
            | cons p rest =>
              simp only [hwk] at h
              cases hr : env.readFile p with
              | error e => simp [hr] at h
              | ok f2 =>
                exact ⟨f2, by unfold loadedFrame; simp [hz, he, hwk, hr]⟩
        | false =>
          simp only [hz, Bool.false_eq_true, if_false] at h
          cases hr : env.readFile (tmpPath up) with
          | error e => simp [hr] at h
          | ok f2 =>
            exact ⟨f2, by unfold loadedFrame; simp [hz, hr]⟩
      obtain ⟨f, hf⟩ := hex
      exact ⟨up, f, rfl, rfl, hf, load_data_eq_finishNormalize tr env up f hw hf⟩

/-! ## Concrete fixtures used by witnesses and counterexamples -/

/-- A transform oracle that leaves every row unchanged (in particular it is
the identity between identical reference systems, as the pyproj no-op
pipeline is). -/
def idTransform : Transform := fun _ _ r => Except.ok r

/-- A one-feature frame with no declared reference system. -/
def frameNoCrs : GeoDataFrame :=
  { columns := ["geometry", "name"],
    rows := [[Val.geom [(106, -6)], Val.str "Jakarta"]],
    crs := none }

/-- A one-feature frame already declared as WGS84. -/
def frameWgs : GeoDataFrame :=
  { columns := ["geometry"], rows := [[Val.geom [(107, -7)]]], crs := some 4326 }

/-- A frame with a geometry column but zero features. -/
def frameEmpty : GeoDataFrame :=
  { columns := ["geometry"], rows := [], crs := some 4326 }

/-- An environment whose format driver returns the given frame for every
path, with a succeeding scratch write. -/
def envFor (f : GeoDataFrame) : Env :=
  { writeOk := true, extractall := Except.error "not an archive",
    readFile := fun _ => Except.ok f }

/-- A direct-format upload. -/
def upGeojson : Upload :=
  { name := "data.geojson", content := [123] }

/-! ## Claim theorems -/

/-- C1: for every input upload for which `load_data` returns a dataset
(rather than `None`), the coordinate reference system of the returned
dataset is WGS84 (EPSG:4326).  The normalization step of lines 112-116
either assigns EPSG:4326 to an unlabeled frame or reprojects into it, and
every failure path returns `None`. -/
theorem c1_returned_crs_is_wgs84 (tr : Transform) (env : Env) (u : Option Upload)
    (g : GeoDataFrame) (h : (load_data tr env u).result = some g) :
    g.crs = some 4326 := by
  obtain ⟨up, f, _, _, _, heq⟩ := load_data_some_inv tr env u g h
  rw [heq] at h
  exact (finishNormalize_result_some tr f _ g h).1

/-- Witness for C1 at a concrete upload: a one-feature unlabeled GeoJSON
load succeeds and the returned frame carries EPSG:4326. -/
theorem c1_returned_crs_is_wgs84_witness :
    ({ frameNoCrs with crs := some 4326 } : GeoDataFrame).crs = some 4326 :=
  c1_returned_crs_is_wgs84 idTransform (envFor frameNoCrs) (some upGeojson)
    { frameNoCrs with crs := some 4326 } (by decide)

/-- C4: a successfully loaded dataset that declares no coordinate reference
system is assigned WGS84 (EPSG:4326) by `set_crs` (line 114) without
transforming coordinates: the rows of the returned dataset are exactly the
rows the driver produced. -/
theorem c4_unlabeled_crs_assigned (tr : Transform) (env : Env) (up : Upload)
    (f : GeoDataFrame) (hw : env.writeOk = true)
    (hf : loadedFrame env up = Except.ok f) (hne : f.empty = false)
    (hgc : "geometry" ∈ f.columns) (hcrs : f.crs = none) :
    (load_data tr env (some up)).result = some { f with crs := some 4326 } ∧
      ({ f with crs := some 4326 } : GeoDataFrame).rows = f.rows := by
  refine ⟨?_, rfl⟩
  rw [load_data_eq_finishNormalize tr env up f hw hf]
  unfold finishNormalize
  rw [if_neg (by simp [hne, hgc])]
  simp [hcrs, GeoDataFrame.set_crs]

/-- Witness for C4 at a concrete upload: the unlabeled one-feature frame is
returned with EPSG:4326 assigned and its rows untouched. -/
theorem c4_unlabeled_crs_assigned_witness :
    (load_data idTransform (envFor frameNoCrs) (some upGeojson)).result =
        some { frameNoCrs with crs := some 4326 } ∧
      ({ frameNoCrs with crs := some 4326 } : GeoDataFrame).rows = frameNoCrs.rows :=
  c4_unlabeled_crs_assigned idTransform (envFor frameNoCrs) upGeojson frameNoCrs
    rfl rfl rfl (by decide) rfl

/-- C5: a successfully loaded dataset that already declares WGS84 is
returned unchanged, bit for bit.  The source still calls
`to_crs(epsg=4326)` on it (line 116), but the pyproj transform between
identical reference systems is the identity — that modelling fact about the
external library is the hypothesis `htr`. -/
theorem c5_wgs84_returned_unchanged (tr : Transform) (env : Env) (up : Upload)
    (f : GeoDataFrame) (htr : ∀ r, tr 4326 4326 r = Except.ok r)
    (hw : env.writeOk = true) (hf : loadedFrame env up = Except.ok f)
    (hne : f.empty = false) (hgc : "geometry" ∈ f.columns)
    (hcrs : f.crs = some 4326) :
    (load_data tr env (some up)).result = some f := by
  rw [load_data_eq_finishNormalize tr env up f hw hf]
  unfold finishNormalize
  rw [if_neg (by simp [hne, hgc])]
  obtain ⟨c, r, s⟩ := f
  simp only [GeoDataFrame.crs] at hcrs
  subst hcrs
  simp [GeoDataFrame.to_crs, mapRows_id tr htr r]

/-- Witness for C5 at a concrete upload: a frame already in WGS84 comes
back equal to itself. -/
theorem c5_wgs84_returned_unchanged_witness :
    (load_data idTransform (envFor frameWgs) (some upGeojson)).result = some frameWgs :=
  c5_wgs84_returned_unchanged idTransform (envFor frameWgs) upGeojson frameWgs
    (fun r => rfl) rfl rfl rfl (by decide) rfl

/-- Every exit of the normalization stage either returns a frame with no
error reported, or returns `None` with an error reported. -/
theorem finishNormalize_report (tr : Transform) (f : GeoDataFrame) (d : Bool) :
    ((finishNormalize tr f d).result.isSome = true ∧ (finishNormalize tr f d).err = none) ∨
      ((finishNormalize tr f d).result = none ∧ (finishNormalize tr f d).err.isSome = true) := by
  unfold finishNormalize
  split
  · exact Or.inr ⟨rfl, rfl⟩
  · split
    · split
      · exact Or.inr ⟨rfl, rfl⟩
      · exact Or.inl ⟨rfl, rfl⟩
    · split
      · exact Or.inr ⟨rfl, rfl⟩
      · exact Or.inl ⟨rfl, rfl⟩

/-- C6: an upload whose extension is outside the recognized set
{.geojson, .kml, .gpkg, .zip} is rejected by the upload widget's whitelist
(line 30) before `load_data` ever runs, so the request fails as
`UnsupportedFormat` with no scratch file or directory allocated and no
cleanup needed. -/
theorem c6_unsupported_format_no_scratch (tr : Transform) (env : Env) (up : Upload)
    (h : uploaderAccepts up.name = false) :
    ingest tr env up =
      { result := none, err := some ErrKind.unsupportedFormat,
        fs := { tmpExists := false, dirExists := false }, cleanups := 0 } := by
  unfold ingest
  rw [h]
  rfl

/-- Witness for C6: a `.txt` upload is rejected with nothing allocated. -/
theorem c6_unsupported_format_no_scratch_witness :
    ingest idTransform (envFor frameWgs) { name := "notes.txt", content := [110] } =
      { result := none, err := some ErrKind.unsupportedFormat,
        fs := { tmpExists := false, dirExists := false }, cleanups := 0 } :=
  c6_unsupported_format_no_scratch idTransform (envFor frameWgs)
    { name := "notes.txt", content := [110] } rfl

/-- C7: once the driver has produced a frame, `load_data` fails with the
`MissingGeometry` report (line 109) whenever the frame has zero features or
lacks the `geometry` column (in a dataframe, a column is an attribute of
every feature, so lacking it means no feature exposes a geometry
attribute); consequently every returned dataset is non-empty and carries
the `geometry` column. -/
theorem c7_missing_geometry_gate (tr : Transform) (env : Env) (up : Upload)
    (f : GeoDataFrame) (hw : env.writeOk = true)
    (hf : loadedFrame env up = Except.ok f) :
    ((f.rows = [] ∨ "geometry" ∉ f.columns) →
      (load_data tr env (some up)).result = none ∧
        (load_data tr env (some up)).err = some ErrKind.missingGeometry) ∧
      (∀ g, (load_data tr env (some up)).result = some g →
        g.rows ≠ [] ∧ "geometry" ∈ g.columns) := by
  constructor
  · intro hbad
    rw [load_data_eq_finishNormalize tr env up f hw hf]
    unfold finishNormalize
    rw [if_pos ?hcond]
    case hcond => cases hbad with
      | inl h0 => simp_all [GeoDataFrame.empty]
      | inr h0 => simp_all [GeoDataFrame.empty]
    exact ⟨rfl, rfl⟩
  · intro g hg
    rw [load_data_eq_finishNormalize tr env up f hw hf] at hg
    obtain ⟨hcrs, hcols, hlen, hne, hgc⟩ := finishNormalize_result_some tr f _ g hg
    constructor
    · intro h0
      have hf0 : f.rows.length = 0 := by rw [← hlen, h0]; rfl
      have hfe : f.rows = [] := List.length_eq_zero.mp hf0
      rw [GeoDataFrame.empty, hfe] at hne
      simp at hne
    · rw [hcols]
      exact hgc

/-- Witness for C7: a zero-feature frame is rejected as MissingGeometry. -/
theorem c7_missing_geometry_gate_witness :
    (load_data idTransform (envFor frameEmpty) (some upGeojson)).result = none ∧
      (load_data idTransform (envFor frameEmpty) (some upGeojson)).err =
        some ErrKind.missingGeometry :=
  (c7_missing_geometry_gate idTransform (envFor frameEmpty) upGeojson frameEmpty
    rfl rfl).1 (Or.inl rfl)

/-- C8: a `.zip` upload that extracts successfully but whose extracted tree
holds no `.shp` file at any depth fails at line 94 with the
`NoGeometryFileFound` report, returns no dataset, and leaves no scratch
behind. -/
theorem c8_zip_without_shp_fails (tr : Transform) (env : Env) (up : Upload)
    (tree : Entry) (hz : suffixOf up.name = ".zip") (hw : env.writeOk = true)
    (he : env.extractall = Except.ok tree) (hs : hasShp tree = false) :
    load_data tr env (some up) =
      { result := none, err := some ErrKind.noShpFound,
        fs := { tmpExists := false, dirExists := false }, cleanups := 1 } := by
  have hwk : walkShp extractRoot tree = [] := (walkShp_eq_nil_iff tree extractRoot).mpr hs
  have hzb : (suffixOf up.name == ".zip") = true := by rw [hz]; rfl
  unfold load_data
  rw [hw]
  simp only [if_true, hzb, he, hwk]
  rfl

/-- Witness for C8: a ZIP holding only `data/readme.txt` fails with the
no-shapefile report. -/
theorem c8_zip_without_shp_fails_witness :
    load_data idTransform
        { writeOk := true,
          extractall := Except.ok (Entry.dir "data" (Entry.file "readme.txt" Entry.nil) Entry.nil),
          readFile := fun _ => Except.error "unused" }
        (some { name := "bundle.zip", content := [80] }) =
      { result := none, err := some ErrKind.noShpFound,
        fs := { tmpExists := false, dirExists := false }, cleanups := 1 } :=
  c8_zip_without_shp_fails idTransform
    { writeOk := true,
      extractall := Except.ok (Entry.dir "data" (Entry.file "readme.txt" Entry.nil) Entry.nil),
      readFile := fun _ => Except.error "unused" }
    { name := "bundle.zip", content := [80] }
    (Entry.dir "data" (Entry.file "readme.txt" Entry.nil) Entry.nil) rfl rfl rfl rfl

/-- C9: for every upload and every behaviour of the external collaborators
(scratch-write fault, extraction fault, driver fault, transform fault
included), `load_data` returns: either a dataset, or `None` with an error
reported.  Every fault surfaces as a structured result because the whole
body runs inside the `try` of line 67 whose line 120 handler catches
`Exception`. -/
theorem c9_no_fault_escapes (tr : Transform) (env : Env) (up : Upload) :
    (load_data tr env (some up)).result.isSome = true ∨
      ((load_data tr env (some up)).result = none ∧
        (load_data tr env (some up)).err.isSome = true) := by
  unfold load_data
  cases hw : env.writeOk with
  | false => exact Or.inr ⟨rfl, rfl⟩
  | true =>
    cases hz : (suffixOf up.name == ".zip") with
    | false =>
      simp only [hz, Bool.false_eq_true, if_false, if_true]
      cases hr : env.readFile (tmpPath up) with
      | error e => simp [hr]
      | ok f => simp only [hr]; exact (finishNormalize_report tr f false).imp And.left id
    | true =>
      simp only [hz, if_true]
      cases he : env.extractall with
      | error e => simp [he]
      | ok tree =>
        simp only [he]
        cases hwk : walkShp extractRoot tree with
        | nil => simp [hwk]
        | cons p rest =>
          simp only [hwk]
          cases hr : env.readFile p with
          | error e => simp [hr]
          | ok f => simp only [hr]; exact (finishNormalize_report tr f true).imp And.left id

/-- An environment in which the write of the upload into the scratch file
raises (for example the disk is full). -/
def envWriteFault : Env :=
  { writeOk := false, extractall := Except.error "unused",
    readFile := fun _ => Except.error "unused" }

/-- C2 evaluated at its failing input: when the scratch write raises, the
`finally` block of lines 124-129 does run — exactly once — and the call
returns `None` with the fault reported, but the scratch file that
`NamedTemporaryFile(delete=False)` already created is left behind, because
`tmp_path = tmp.name` (line 72) runs only after `tmp.write` succeeded, so
the cleanup guard `if tmp_path and os.path.exists(tmp_path)` sees
`tmp_path = None` and removes nothing.  This refutes the cleanup claim on
that one exit path. -/
theorem c2_write_fault_leaks_scratch_file :
    (load_data idTransform envWriteFault (some upGeojson)).fs.tmpExists = true ∧
      (load_data idTransform envWriteFault (some upGeojson)).cleanups = 1 ∧
      (load_data idTransform envWriteFault (some upGeojson)).result = none ∧
      (load_data idTransform envWriteFault (some upGeojson)).err.isSome = true :=
  ⟨rfl, rfl, rfl, rfl⟩

/-- Two presentations of the same extracted archive — shapefile bundles
under subdirectories `a/` and `b/` — differing only in the order the
operating system lists the top directory.  Python's `os.walk` follows that
listing order and does not sort. -/
def treeBA : Entry :=
  Entry.dir "b" (Entry.file "x.shp" Entry.nil)
    (Entry.dir "a" (Entry.file "x.shp" Entry.nil) Entry.nil)

/-- The same archive with the lexicographic listing order. -/
def treeAB : Entry :=
  Entry.dir "a" (Entry.file "x.shp" Entry.nil)
    (Entry.dir "b" (Entry.file "x.shp" Entry.nil) Entry.nil)

/-- C3 counterexample: the code takes `shp_files[0]` in `os.walk` order,
which is the unspecified OS listing order, not a lexicographic traversal.
For the archive with bundles under `a/` and `b/`, the legal listing that
reports `b` before `a` makes the pipeline select the bundle under `b/`,
while a traversal lexicographic within each directory (the `treeAB`
presentation) selects the bundle under `a/` — so "every run selects the
bundle under `a/`" is false. -/
theorem c3_walk_order_not_lexicographic :
    (walkShp extractRoot treeBA).head? =
        some (pathJoin (pathJoin extractRoot "b") "x.shp") ∧
      (walkShp extractRoot treeAB).head? =
        some (pathJoin (pathJoin extractRoot "a") "x.shp") ∧
      pathJoin (pathJoin extractRoot "b") "x.shp" ≠
        pathJoin (pathJoin extractRoot "a") "x.shp" :=
  ⟨rfl, rfl, by decide⟩

/-- C3 as amended: the pipeline selects the first `.shp` encountered in
`os.walk` order, which follows the operating system's directory listing
order — deterministic for a fixed listing, but not guaranteed
lexicographic.  Whenever the listing presents `a/` before `b/` (as any
lexicographically sorted listing does) and `a/` contains a `.shp`, the
selected candidate is the first `.shp` of `a/`'s subtree. -/
theorem c3_first_listed_bundle_selected (root : String) (ta tb : Entry)
    (ha : hasShp ta = true) :
    (walkShp root (Entry.dir "a" ta (Entry.dir "b" tb Entry.nil))).head? =
        (walkShp (pathJoin root "a") ta).head? ∧
      (walkShp (pathJoin root "a") ta).head? ≠ none := by
  have hne : walkShp (pathJoin root "a") ta ≠ [] := by
    intro h0
    have h1 := (walkShp_eq_nil_iff ta (pathJoin root "a")).mp h0
    rw [h1] at ha
    exact Bool.false_ne_true ha
  cases hx : walkShp (pathJoin root "a") ta with
  | nil => exact absurd hx hne
  | cons x xs =>
    have hx2 : levelShp (pathJoin root "a") ta ++ walkShpDirs (pathJoin root "a") ta
        = x :: xs := hx
    constructor
    · simp only [walkShp, levelShp, walkShpDirs, List.nil_append, List.append_nil]
      rw [← List.append_assoc, hx2]
      simp
    · simp

/-- Witness for the amended C3: with the sorted listing `a/` before `b/`,
the selected candidate is `a/x.shp`. -/
theorem c3_first_listed_bundle_selected_witness :
    (walkShp extractRoot
          (Entry.dir "a" (Entry.file "x.shp" Entry.nil)
            (Entry.dir "b" (Entry.file "y.shp" Entry.nil) Entry.nil))).head? =
        (walkShp (pathJoin extractRoot "a") (Entry.file "x.shp" Entry.nil)).head? ∧
      (walkShp (pathJoin extractRoot "a") (Entry.file "x.shp" Entry.nil)).head? ≠ none :=
  c3_first_listed_bundle_selected extractRoot (Entry.file "x.shp" Entry.nil)
    (Entry.file "y.shp" Entry.nil) rfl

/-- C10: `create_map` is total in its basemap argument.  Each of the three
keys of `TILE_MAP` selects its own tile source and attribution, and any
other string falls back to the `OpenStreetMap` entry — `TILE_MAP.get`
returns the default instead of raising a lookup error. -/
theorem c10_basemap_lookup_total :
    create_map "OpenStreetMap" =
        { tiles := "OpenStreetMap",
          attribution := "© OpenStreetMap contributors", zoom_start := 10 } ∧
      create_map "CartoDB Positron" =
        { tiles := "CartoDB Positron",
          attribution := "© OpenStreetMap contributors © CartoDB", zoom_start := 10 } ∧
      create_map "Stamen Terrain" =
        { tiles := "Stamen Terrain",
          attribution := "Map tiles by Stamen Design, under CC BY 3.0. Data © OpenStreetMap contributors",
          zoom_start := 10 } ∧
      ∀ b, b ≠ "OpenStreetMap" → b ≠ "CartoDB Positron" → b ≠ "Stamen Terrain" →
        create_map b =
          { tiles := "OpenStreetMap",
            attribution := "© OpenStreetMap contributors", zoom_start := 10 } := by
  refine ⟨rfl, rfl, rfl, ?_⟩
  intro b h1 h2 h3
  have hfind : TILE_MAP.find? (fun p => p.1 == b) = none := by
    rw [TILE_MAP]
    rw [List.find?_cons_of_neg _ (by simpa using Ne.symm h1)]
    rw [List.find?_cons_of_neg _ (by simpa using Ne.symm h2)]
    rw [List.find?_cons_of_neg _ (by simpa using Ne.symm h3)]
    rfl
  unfold create_map dictGet
  rw [hfind]
  rfl

/-- Witness for C10 at a concrete unknown key: an arbitrary string falls
back to the OpenStreetMap entry. -/
theorem c10_basemap_lookup_total_witness :
    create_map "Voyager" =
      { tiles := "OpenStreetMap",
        attribution := "© OpenStreetMap contributors", zoom_start := 10 } :=
  c10_basemap_lookup_total.2.2.2 "Voyager" (by decide) (by decide) (by decide)

end Geoportal
